import Mathlib

/-!
Shallow embedding of the Flashfood-API-Scraper backend core pipeline.

The definitions below are translated from the repository source:

* `backend/app/services/flashfood.py`  — `FlashfoodService.parse_item_data`
  (item normalization: price coercion, discount-percent computation,
  expiry parsing).
* `backend/app/services/scheduler.py`  — `FlashfoodScheduler._process_store_items`
  (per-store reconciliation of a fetched snapshot against stored products,
  price-history appends, stale marking) and `FlashfoodScheduler.start`/`stop`
  (the scheduler state machine).
* `backend/app/services/notification.py` — `NotificationService.filter_deals_for_user`
  and `NotificationService.is_notification_time_allowed`.

Modelling conventions: Python floats become `ℚ`; `datetime` values become `ℤ`
timestamps (a single `now` per reconciliation call stands for the
`datetime.now(timezone.utc)` calls made during it); `time`-of-day values
become `ℕ` minutes since midnight (Python `time` objects compare
lexicographically on (hour, minute, ...), which this ordering reflects);
SQLAlchemy rows become structures held in lists in insertion (primary-key)
order, with `query(...).first()` modelled by `List.find?` and in-place row
mutation by replacing the first matching list element.
-/

/-- A Python value found in a raw price field: a JSON number, a string that
`float()` parses, or a string that `float()` rejects (raising
`ValueError`/`TypeError`). -/
inductive PriceVal where
  | num (q : ℚ)
  | strNum (q : ℚ)
  | strBad (s : String)
deriving DecidableEq

/-- `safe_price_convert` from `FlashfoodService.parse_item_data`:
`None` ↦ `0.0`; otherwise `float(value)`, defaulting to `0.0` when the
conversion raises. -/
def safe_price_convert : Option PriceVal → ℚ
  | none => 0
  | some (PriceVal.num q) => q
  | some (PriceVal.strNum q) => q
  | some (PriceVal.strBad _) => 0

/-- Python's `int()` on a float/rational: truncation toward zero
(numerator T-divided by denominator). -/
def pyInt (q : ℚ) : ℤ := q.num.tdiv q.den

/-- A raw `expiryDate` string: either one `datetime.fromisoformat` accepts
(abstracted to the timestamp it denotes) or one it rejects. -/
inductive ExpiryRaw where
  | valid (d : ℤ)
  | invalid
deriving DecidableEq

/-- A raw item object from the Flashfood API, restricted to the fields
`parse_item_data` reads. `none` stands for a missing (or JSON-null) field.
`image` is `some u` when the raw item has a truthy `image` object whose
`url` field is `u` (`none` inside when `url` is absent). -/
structure RawItem where
  id : String
  name : Option String
  description : Option String
  category : Option String
  originalPrice : Option PriceVal
  price : Option PriceVal
  quantityAvailable : Option ℤ
  expiryDate : Option ExpiryRaw
  image : Option (Option String)
deriving DecidableEq

/-- The normalized dictionary returned by `FlashfoodService.parse_item_data`
(before the scheduler adds `store_id`). -/
structure ParsedItem where
  external_id : String
  name : String
  description : Option String
  category : Option String
  original_price : ℚ
  discount_price : ℚ
  discount_percent : Option ℤ
  quantity_available : ℤ
  expiry_date : Option ℤ
  image_url : Option String
deriving DecidableEq

/-- `FlashfoodService.parse_item_data`: price fields coerced through
`safe_price_convert` (with `raw_item.get("price", 0)` defaulting to `0`),
`discount_percent = int(((original - discount) / original) * 100)` guarded by
`if original_price and original_price > 0`, expiry parsed leniently, and
`image.url` read only when the `image` object is truthy. -/
def parse_item_data (raw : RawItem) : ParsedItem :=
  let original_price := safe_price_convert raw.originalPrice
  let discount_price := safe_price_convert (some (raw.price.getD (PriceVal.num 0)))
  { external_id := raw.id
    name := raw.name.getD "Unknown Item"
    description := raw.description
    category := raw.category
    original_price := original_price
    discount_price := discount_price
    discount_percent :=
      if original_price ≠ 0 ∧ 0 < original_price then
        some (pyInt ((original_price - discount_price) / original_price * 100))
      else none
    quantity_available := raw.quantityAvailable.getD 0
    expiry_date :=
      match raw.expiryDate with
      | some (ExpiryRaw.valid d) => some d
      | some ExpiryRaw.invalid => none
      | none => none
    image_url := raw.image.bind id }

/-- The `item_info` dictionary after the scheduler executes
`item_info["store_id"] = store.id`. -/
structure ItemInfo extends ParsedItem where
  store_id : ℕ
deriving DecidableEq

/-- `item_info = parse_item_data(item_data); item_info["store_id"] = store.id`
from `FlashfoodScheduler._process_store_items`. -/
def itemInfoFor (storeId : ℕ) (raw : RawItem) : ItemInfo :=
  { parse_item_data raw with store_id := storeId }

/-- A row of the `product` table (`app/models/product.py`). -/
structure Product where
  id : ℕ
  store_id : ℕ
  external_id : String
  name : String
  description : Option String
  category : Option String
  original_price : ℚ
  discount_price : ℚ
  discount_percent : Option ℤ
  quantity_available : ℤ
  expiry_date : Option ℤ
  image_url : Option String
  first_seen : ℤ
  last_seen : ℤ
deriving DecidableEq

/-- A row of the `price_history` table (`app/models/price_history.py`). -/
structure PriceHistory where
  product_id : ℕ
  price : ℚ
  quantity_available : ℤ
  recorded_at : ℤ
deriving DecidableEq

/-- The persistent state touched by `_process_store_items`: the product rows
(in primary-key order), the price-history rows, and the next autoincrement
product id. -/
structure DbState where
  products : List Product
  history : List PriceHistory
  nextProductId : ℕ
deriving DecidableEq

/-- The predicate of the product lookup
`db.query(Product).filter(Product.store_id == store.id,
Product.external_id == item_info["external_id"])`. -/
def productMatches (storeId : ℕ) (eid : String) (p : Product) : Bool :=
  decide (p.store_id = storeId ∧ p.external_id = eid)

/-- `.first()` on the product lookup: the first row matching
`(store_id, external_id)`. -/
def findProd (storeId : ℕ) (eid : String) (ps : List Product) : Option Product :=
  ps.find? (productMatches storeId eid)

/-- Replace the first element satisfying `pred` by its image under `f`
(models in-place mutation of the row returned by `.first()`). -/
def updateFirst (pred : α → Bool) (f : α → α) : List α → List α
  | [] => []
  | x :: xs => if pred x then f x :: xs else x :: updateFirst pred f xs

/-- The update loop on an existing product:
`for key, value in item_info.items(): if key != "store_id": setattr(...)`
followed by `db_product.last_seen = datetime.now(timezone.utc)`.
Every `item_info` key except `store_id` is written; `id`, `store_id` and
`first_seen` are untouched. -/
def applyItemUpdate (p : Product) (info : ItemInfo) (now : ℤ) : Product :=
  { p with
    external_id := info.external_id
    name := info.name
    description := info.description
    category := info.category
    original_price := info.original_price
    discount_price := info.discount_price
    discount_percent := info.discount_percent
    quantity_available := info.quantity_available
    expiry_date := info.expiry_date
    image_url := info.image_url
    last_seen := now }

/-- `Product(**item_info)` with the autoincrement id assigned on commit and
the model defaults `first_seen = last_seen = now`. -/
def createProduct (info : ItemInfo) (pid : ℕ) (now : ℤ) : Product :=
  { id := pid
    store_id := info.store_id
    external_id := info.external_id
    name := info.name
    description := info.description
    category := info.category
    original_price := info.original_price
    discount_price := info.discount_price
    discount_percent := info.discount_percent
    quantity_available := info.quantity_available
    expiry_date := info.expiry_date
    image_url := info.image_url
    first_seen := now
    last_seen := now }

/-- The loop state of `_process_store_items`: the database plus the local
variables `new_items_count`, `new_products` and `current_external_ids`. -/
structure ProcState where
  db : DbState
  new_items_count : ℕ
  new_products : List Product
  current_external_ids : List String
deriving DecidableEq

/-- One iteration of the item loop in `_process_store_items`: parse the raw
item, stamp the store id, record the external id, then either create the
product (with a `new` diff entry and an initial price-history row) or update
the existing row (appending a price-history row only when the stored
`discount_price` or `quantity_available` differs from the observed one). -/
def processItem (storeId : ℕ) (now : ℤ) (s : ProcState) (raw : RawItem) : ProcState :=
  match findProd storeId (itemInfoFor storeId raw).external_id s.db.products with
  | none =>
      { db :=
          { products :=
              s.db.products ++ [createProduct (itemInfoFor storeId raw) s.db.nextProductId now]
            history :=
              s.db.history ++
                [{ product_id := s.db.nextProductId
                   price := (itemInfoFor storeId raw).discount_price
                   quantity_available := (itemInfoFor storeId raw).quantity_available
                   recorded_at := now }]
            nextProductId := s.db.nextProductId + 1 }
        new_items_count := s.new_items_count + 1
        new_products :=
          s.new_products ++ [createProduct (itemInfoFor storeId raw) s.db.nextProductId now]
        current_external_ids :=
          s.current_external_ids.insert (itemInfoFor storeId raw).external_id }
  | some p =>
      { db :=
          { products :=
              updateFirst (productMatches storeId (itemInfoFor storeId raw).external_id)
                (fun q => applyItemUpdate q (itemInfoFor storeId raw) now) s.db.products
            history :=
              if p.discount_price ≠ (itemInfoFor storeId raw).discount_price ∨
                  p.quantity_available ≠ (itemInfoFor storeId raw).quantity_available then
                s.db.history ++
                  [{ product_id := p.id
                     price := (itemInfoFor storeId raw).discount_price
                     quantity_available := (itemInfoFor storeId raw).quantity_available
                     recorded_at := now }]
              else s.db.history
            nextProductId := s.db.nextProductId }
        new_items_count := s.new_items_count
        new_products := s.new_products
        current_external_ids :=
          s.current_external_ids.insert (itemInfoFor storeId raw).external_id }

/-- The stale pass of `_process_store_items`: every product of this store
whose external id is not in `current_external_ids` and whose
`quantity_available > 0` gets `quantity_available = 0` and
`last_seen = now`; all other rows are untouched and no row is removed. -/
def markStale (storeId : ℕ) (ids : List String) (now : ℤ) (ps : List Product) : List Product :=
  ps.map fun p =>
    if p.store_id = storeId ∧ p.external_id ∉ ids ∧ 0 < p.quantity_available then
      { p with quantity_available := 0, last_seen := now }
    else p

/-- `FlashfoodScheduler._process_store_items`: fold the item loop over the
snapshot, then run the stale pass, returning the new database, the
`new_items_count` and the `new_products` list (the only diff output handed
onward to the notification dispatcher and websocket broadcast). -/
def process_store_items (storeId : ℕ) (now : ℤ) (db : DbState) (items : List RawItem) :
    DbState × ℕ × List Product :=
  let s := items.foldl (processItem storeId now)
    { db := db, new_items_count := 0, new_products := [], current_external_ids := [] }
  ({ products := markStale storeId s.current_external_ids now s.db.products
     history := s.db.history
     nextProductId := s.db.nextProductId },
   s.new_items_count, s.new_products)

/-- A row of the `store` table, restricted to the fields the notification
filter reads through the `deal.store` relationship. -/
structure StoreRec where
  id : ℕ
  external_id : String
  name : String
  city : String
deriving DecidableEq

/-- A `user_preference` row, restricted to the fields the notification
service reads. `selected_store_ids = []` stands for both an empty JSON array
and JSON null (both falsy in the Python guards), likewise
`favorite_categories`. Times of day are minutes since midnight. -/
structure UserPreference where
  city : String
  selected_store_ids : List ℕ
  min_discount_percent : ℤ
  favorite_categories : List String
  notification_start_time : ℕ
  notification_end_time : ℕ
  email_notifications : Bool
  notify_new_deals : Bool
deriving DecidableEq

/-- The minimum-discount guard of `filter_deals_for_user`:
`if deal.discount_percent and deal.discount_percent < preferences.min_discount_percent: continue`.
Returns `true` exactly when the `continue` fires (deal excluded). A `None`
or zero `discount_percent` is falsy, so the guard never fires for it. -/
def discountGuard (dp : Option ℤ) (minPct : ℤ) : Bool :=
  match dp with
  | none => false
  | some d => decide (d ≠ 0 ∧ d < minPct)

/-- Python `deal.category in favorite_categories` where `category` may be
`None` (and `None` is not a member of a list of strings). -/
def categoryMember : Option String → List String → Bool
  | some c, cats => decide (c ∈ cats)
  | none, _ => false

/-- The per-deal body of `NotificationService.filter_deals_for_user`: the
four `continue` guards (city, selected stores, minimum discount, favorite
categories) in source order; `true` means the deal is kept. The deal is a
product paired with its related store row. -/
def dealMatches (prefs : UserPreference) (deal : Product × StoreRec) : Bool :=
  if deal.2.city ≠ prefs.city then false
  else if prefs.selected_store_ids ≠ [] ∧ deal.1.store_id ∉ prefs.selected_store_ids then false
  else if discountGuard deal.1.discount_percent prefs.min_discount_percent then false
  else if prefs.favorite_categories ≠ [] ∧
      categoryMember deal.1.category prefs.favorite_categories = false then false
  else true

/-- `NotificationService.filter_deals_for_user`: keep the deals passing all
four guards, in order. -/
def filter_deals_for_user (deals : List (Product × StoreRec)) (prefs : UserPreference) :
    List (Product × StoreRec) :=
  deals.filter (dealMatches prefs)

/-- `NotificationService.is_notification_time_allowed`: if
`start_time <= end_time` allow when `start_time <= now <= end_time`,
otherwise (window wraps midnight) allow when
`now >= start_time or now <= end_time`. -/
def is_notification_time_allowed (now : ℕ) (prefs : UserPreference) : Bool :=
  if prefs.notification_start_time ≤ prefs.notification_end_time then
    decide (prefs.notification_start_time ≤ now ∧ now ≤ prefs.notification_end_time)
  else
    decide (now ≥ prefs.notification_start_time ∨ now ≤ prefs.notification_end_time)

/-- The observable state of `FlashfoodScheduler` together with its
`AsyncIOScheduler`: the `is_running` flag and the ids of registered jobs. -/
structure FlashfoodScheduler where
  is_running : Bool
  jobs : List String
deriving DecidableEq

/-- A freshly constructed `FlashfoodScheduler`: not running, no job. -/
def FlashfoodScheduler.init : FlashfoodScheduler :=
  { is_running := false, jobs := [] }

/-- `AsyncIOScheduler.add_job(..., id=jobId, replace_existing=True)`:
registers the job id, replacing any existing job with the same id. -/
def FlashfoodScheduler.addJob (jobId : String) (jobs : List String) : List String :=
  if jobId ∈ jobs then jobs else jobs ++ [jobId]

/-- `FlashfoodScheduler.start`: no-op when already running, otherwise
register the `"flashfood_polling"` interval job and set `is_running`. -/
def FlashfoodScheduler.start (s : FlashfoodScheduler) : FlashfoodScheduler :=
  if s.is_running then s
  else { is_running := true, jobs := FlashfoodScheduler.addJob "flashfood_polling" s.jobs }

/-- `FlashfoodScheduler.stop`: no-op when not running, otherwise shut the
scheduler down (cancelling its jobs) and clear `is_running`. -/
def FlashfoodScheduler.stop (s : FlashfoodScheduler) : FlashfoodScheduler :=
  if s.is_running then { is_running := false, jobs := [] } else s

/-- An external `start`/`stop` call on the scheduler. -/
inductive SchedAction where
  | start
  | stop
deriving DecidableEq

/-- Run a sequence of `start`/`stop` calls. -/
def FlashfoodScheduler.runActions (s : FlashfoodScheduler) : List SchedAction → FlashfoodScheduler
  | [] => s
  | SchedAction.start :: rest => FlashfoodScheduler.runActions s.start rest
  | SchedAction.stop :: rest => FlashfoodScheduler.runActions s.stop rest

/-- Reconciliation has recorded item `info` at store `storeId`: the first
product row matching `(storeId, info.external_id)` exists and carries the
observed price and quantity. -/
def observes (storeId : ℕ) (info : ItemInfo) (ps : List Product) : Prop :=
  ∃ p, findProd storeId info.external_id ps = some p ∧
    p.discount_price = info.discount_price ∧
    p.quantity_available = info.quantity_available

/-- The parsed external id of a raw item. -/
def parseExt (raw : RawItem) : String := (parse_item_data raw).external_id

/- Concrete example values used by witnesses and counterexamples. -/

/-- A raw bakery item with external id `"a"`, original price 4, current
price 2, quantity 5. -/
def exRawA2 : RawItem :=
  { id := "a", name := some "Bread", description := none, category := some "Bakery"
    originalPrice := some (PriceVal.num 4), price := some (PriceVal.num 2)
    quantityAvailable := some 5, expiryDate := none, image := none }

/-- The same raw item as `exRawA2` but priced 1. -/
def exRawA1 : RawItem :=
  { exRawA2 with price := some (PriceVal.num 1) }

/-- A raw item with original price 3 and current price 1 (discount ratio
200/3 %, which truncation and rounding disagree on). -/
def exRawC2 : RawItem :=
  { id := "c2", name := none, description := none, category := none
    originalPrice := some (PriceVal.num 3), price := some (PriceVal.num 1)
    quantityAvailable := none, expiryDate := none, image := none }

/-- A stored product row for external id `"a"` at store 1, discount price 3,
quantity 5. -/
def exProdA : Product :=
  { id := 0, store_id := 1, external_id := "a", name := "Bread"
    description := none, category := some "Bakery", original_price := 4
    discount_price := 3, discount_percent := some 25, quantity_available := 5
    expiry_date := none, image_url := none, first_seen := 0, last_seen := 0 }

/-- The stored row `exProdA` with discount price 2 (and percent 50), i.e.
already agreeing with the observation `exRawA2`. -/
def exProdA2 : Product :=
  { exProdA with discount_price := 2, discount_percent := some 50 }

/-- A stored product row for external id `"b"` at store 1 with positive
quantity (absent from every example snapshot). -/
def exProdB : Product :=
  { id := 7, store_id := 1, external_id := "b", name := "Milk"
    description := none, category := some "Dairy", original_price := 6
    discount_price := 3, discount_percent := some 50, quantity_available := 5
    expiry_date := none, image_url := none, first_seen := 0, last_seen := 0 }

/-- A database holding only `exProdA`. -/
def exDb1 : DbState := { products := [exProdA], history := [], nextProductId := 1 }

/-- An empty database. -/
def exDb0 : DbState := { products := [], history := [], nextProductId := 0 }

/-- A store row in Calgary. -/
def exStore : StoreRec := { id := 1, external_id := "s1", name := "No Frills", city := "calgary" }

/-- A subscriber in Calgary with `min_discount_percent = 20`, no store or
category restriction and window 05:00–22:00. -/
def exPrefs : UserPreference :=
  { city := "calgary", selected_store_ids := [], min_discount_percent := 20
    favorite_categories := [], notification_start_time := 300
    notification_end_time := 1320, email_notifications := true, notify_new_deals := true }

/-- `exPrefs` with the wrapping notification window 22:00–05:00. -/
def exPrefsWrap : UserPreference :=
  { exPrefs with notification_start_time := 1320, notification_end_time := 300 }

/-- A deal (product with its store) whose discount percent was never
computed. -/
def exDealNone : Product × StoreRec :=
  ({ exProdA with discount_percent := none }, exStore)

/-- A deal with discount percent 15. -/
def exDeal15 : Product × StoreRec :=
  ({ exProdA with discount_percent := some 15 }, exStore)

/-- A deal with discount percent 25. -/
def exDeal25 : Product × StoreRec :=
  ({ exProdA with discount_percent := some 25 }, exStore)

/-- A deal with discount percent exactly 0. -/
def exDeal0 : Product × StoreRec :=
  ({ exProdA with discount_percent := some 0 }, exStore)

/-- The loop state at the start of `_process_store_items` over `exDb1`. -/
def exProcA : ProcState :=
  { db := exDb1, new_items_count := 0, new_products := [], current_external_ids := [] }

/-- A database holding only `exProdA2` (which already agrees with the
observation `exRawA2`). -/
def exDb2 : DbState := { products := [exProdA2], history := [], nextProductId := 1 }

/-- The loop state at the start of `_process_store_items` over `exDb2`. -/
def exProcA2 : ProcState :=
  { db := exDb2, new_items_count := 0, new_products := [], current_external_ids := [] }

/-- A database holding only `exProdB`. -/
def exDbB : DbState := { products := [exProdB], history := [], nextProductId := 8 }

/-! ## Helper lemmas -/

/-- `pyInt` agrees with the floor on nonnegative rationals. -/
theorem pyInt_eq_floor (q : ℚ) (h : 0 ≤ q) : pyInt q = ⌊q⌋ := by
  rw [pyInt, Rat.floor_def]
  exact Int.tdiv_eq_ediv (Rat.num_nonneg.mpr h) (Int.natCast_nonneg _)

/-- `pyInt` agrees with the ceiling on negative rationals. -/
theorem pyInt_eq_ceil (q : ℚ) (h : q < 0) : pyInt q = ⌈q⌉ := by
  have h1 : pyInt q = -pyInt (-q) := by
    rw [pyInt, pyInt, Rat.neg_num, Rat.neg_den, Int.neg_tdiv, neg_neg]
  have h2 : pyInt (-q) = ⌊-q⌋ := pyInt_eq_floor _ (by linarith)
  rw [h1, h2, Int.floor_neg, neg_neg]

/-- Evaluation of the floor at the ratio 200/3. -/
theorem floor_two_hundred_thirds : ⌊(200 / 3 : ℚ)⌋ = 66 := by
  rw [show (200 / 3 : ℚ) = ((200 : ℕ) : ℚ) / ((3 : ℕ) : ℚ) by norm_num]
  rw [Rat.floor_natCast_div_natCast]
  norm_num

/-- Evaluation of `pyInt` at the discount ratio of `exRawC2`. -/
theorem pyInt_two_hundred_thirds : pyInt ((3 - 1) / 3 * 100 : ℚ) = 66 := by
  have hx : ((3 : ℚ) - 1) / 3 * 100 = 200 / 3 := by norm_num
  rw [hx, pyInt_eq_floor _ (by norm_num), floor_two_hundred_thirds]

/-- The discount percent `parse_item_data` computes for `exRawC2`. -/
theorem parse_exRawC2_discount : (parse_item_data exRawC2).discount_percent = some 66 := by
  have h : (parse_item_data exRawC2).discount_percent
      = some (pyInt ((3 - 1) / 3 * 100 : ℚ)) := by
    norm_num [parse_item_data, exRawC2, safe_price_convert]
  rw [h, pyInt_two_hundred_thirds]

/-! ## C2 — item normalization and the discount percent -/

/-- C2 counterexample: on a raw item with original price 3 and price 1 the
code stores `int((2/3)*100) = 66`, while `round(100 * (3 - 1) / 3) = 67`;
the claimed rounding formula disagrees with the code at this input. -/
theorem discount_percent_not_rounded :
    (parse_item_data exRawC2).discount_percent = some 66 ∧
    round ((100 : ℚ) * (3 - 1) / 3) = 67 := by
  refine ⟨parse_exRawC2_discount, ?_⟩
  have hx : (100 : ℚ) * (3 - 1) / 3 = 200 / 3 := by norm_num
  rw [hx, round_eq]
  rw [show (200 / 3 + 1 / 2 : ℚ) = ((403 : ℕ) : ℚ) / ((6 : ℕ) : ℚ) by norm_num]
  rw [Rat.floor_natCast_div_natCast]
  norm_num

/-- C2 (amended): when the parsed original price is positive, the discount
percent is set to the truncation toward zero of
`100 * (original - discount) / original` (floor for a nonnegative ratio,
ceiling for a negative one), not its rounding; when the original price is 0
or absent (or negative), it is left unset. -/
theorem discount_percent_truncation (raw : RawItem) :
    (0 < (parse_item_data raw).original_price →
      ∃ d : ℤ, (parse_item_data raw).discount_percent = some d ∧
        (0 ≤ 100 * ((parse_item_data raw).original_price -
            (parse_item_data raw).discount_price) / (parse_item_data raw).original_price →
          (d : ℚ) ≤ 100 * ((parse_item_data raw).original_price -
              (parse_item_data raw).discount_price) / (parse_item_data raw).original_price ∧
          100 * ((parse_item_data raw).original_price -
              (parse_item_data raw).discount_price) / (parse_item_data raw).original_price
            < d + 1) ∧
        (100 * ((parse_item_data raw).original_price -
            (parse_item_data raw).discount_price) / (parse_item_data raw).original_price < 0 →
          (d : ℚ) - 1 < 100 * ((parse_item_data raw).original_price -
              (parse_item_data raw).discount_price) / (parse_item_data raw).original_price ∧
          100 * ((parse_item_data raw).original_price -
              (parse_item_data raw).discount_price) / (parse_item_data raw).original_price
            ≤ d)) ∧
    ((parse_item_data raw).original_price ≤ 0 →
      (parse_item_data raw).discount_percent = none) := by
  have ho : (parse_item_data raw).original_price = safe_price_convert raw.originalPrice := rfl
  have hp : (parse_item_data raw).discount_price
      = safe_price_convert (some (raw.price.getD (PriceVal.num 0))) := rfl
  have hd : (parse_item_data raw).discount_percent =
      if safe_price_convert raw.originalPrice ≠ 0 ∧ 0 < safe_price_convert raw.originalPrice
      then some (pyInt ((safe_price_convert raw.originalPrice -
          safe_price_convert (some (raw.price.getD (PriceVal.num 0)))) /
          safe_price_convert raw.originalPrice * 100))
      else none := rfl
  rw [ho, hp, hd]
  set o := safe_price_convert raw.originalPrice with ho2
  set p := safe_price_convert (some (raw.price.getD (PriceVal.num 0))) with hp2
  constructor
  · intro hpos
    rw [if_pos ⟨ne_of_gt hpos, hpos⟩]
    refine ⟨pyInt ((o - p) / o * 100), rfl, ?_, ?_⟩
    · intro hx
      have hform : 100 * (o - p) / o = (o - p) / o * 100 := by ring
      rw [hform] at hx ⊢
      rw [pyInt_eq_floor _ hx]
      exact ⟨Int.floor_le _, Int.lt_floor_add_one _⟩
    · intro hx
      have hform : 100 * (o - p) / o = (o - p) / o * 100 := by ring
      rw [hform] at hx ⊢
      rw [pyInt_eq_ceil _ hx]
      constructor
      · have := Int.ceil_lt_add_one ((o - p) / o * 100)
        linarith
      · exact Int.le_ceil _
  · intro hle
    rw [if_neg]
    intro hcon
    exact absurd hcon.2 (not_lt.mpr hle)

/-- C2 witness: `exRawC2` has positive parsed original price, and the
amended theorem applies to it. -/
theorem discount_percent_truncation_witness :
    0 < (parse_item_data exRawC2).original_price ∧
    (∃ d : ℤ, (parse_item_data exRawC2).discount_percent = some d ∧
      (0 ≤ 100 * ((parse_item_data exRawC2).original_price -
          (parse_item_data exRawC2).discount_price) / (parse_item_data exRawC2).original_price →
        (d : ℚ) ≤ 100 * ((parse_item_data exRawC2).original_price -
            (parse_item_data exRawC2).discount_price) / (parse_item_data exRawC2).original_price ∧
        100 * ((parse_item_data exRawC2).original_price -
            (parse_item_data exRawC2).discount_price) / (parse_item_data exRawC2).original_price
          < d + 1) ∧
      (100 * ((parse_item_data exRawC2).original_price -
          (parse_item_data exRawC2).discount_price) / (parse_item_data exRawC2).original_price < 0 →
        (d : ℚ) - 1 < 100 * ((parse_item_data exRawC2).original_price -
            (parse_item_data exRawC2).discount_price) / (parse_item_data exRawC2).original_price ∧
        100 * ((parse_item_data exRawC2).original_price -
            (parse_item_data exRawC2).discount_price) / (parse_item_data exRawC2).original_price
          ≤ d)) :=
  ⟨by decide, (discount_percent_truncation exRawC2).1 (by decide)⟩

/-! ## C3 / C9 — the minimum-discount filter -/

/-- C3 counterexample: a subscriber with nonzero threshold 20 and a deal
with no computed discount percent — the claim says the filter excludes it,
but `filter_deals_for_user` keeps it (a `None` percent is falsy, so the
guard never fires). -/
theorem absent_discount_percent_included :
    exPrefs.min_discount_percent = 20 ∧
    (exDealNone.1).discount_percent = none ∧
    filter_deals_for_user [exDealNone] exPrefs = [exDealNone] := by decide

/-- C3 (amended): the min-discount guard excludes a deal exactly when its
discount percent is present, nonzero and below the threshold; equivalently
the deal passes iff the percent is absent, zero, or at least the threshold.
With threshold 20 a deal at 15 is excluded and a deal at 25 is kept, as the
spec's concrete example states. -/
theorem min_discount_filter_characterization :
    (∀ (minPct : ℤ) (dp : Option ℤ),
      discountGuard dp minPct = false ↔
        dp = none ∨ dp = some 0 ∨ ∃ d : ℤ, dp = some d ∧ minPct ≤ d) ∧
    filter_deals_for_user [exDeal15] exPrefs = [] ∧
    filter_deals_for_user [exDeal25] exPrefs = [exDeal25] := by
  refine ⟨?_, by decide, by decide⟩
  intro minPct dp
  cases dp with
  | none => simp [discountGuard]
  | some d =>
    simp only [discountGuard, decide_eq_false_iff_not, not_and, not_lt,
      Option.some.injEq, reduceCtorEq, false_or]
    constructor
    · intro h
      by_cases h0 : d = 0
      · exact Or.inl h0
      · exact Or.inr ⟨d, rfl, h h0⟩
    · rintro (rfl | ⟨e, he, hle⟩)
      · intro h
        exact absurd rfl h
      · intro _
        rw [he]
        exact hle

/-- C3 witness: the characterization applied at threshold 20 and percent 25
yields that the guard does not fire. -/
theorem min_discount_filter_characterization_witness :
    discountGuard (some 25) 20 = false :=
  (min_discount_filter_characterization.1 20 (some 25)).mpr
    (Or.inr (Or.inr ⟨25, rfl, by decide⟩))

/-- C9 (confirmed): with any positive threshold, a deal whose computed
discount percent is exactly 0 is not excluded by the min-discount guard
(0 is falsy, exactly like an absent percent), and the full filter keeps the
zero-percent example deal against threshold 20. -/
theorem zero_discount_percent_passes_filter (minPct : ℤ) (h : 0 < minPct) :
    discountGuard (some 0) minPct = false ∧
    filter_deals_for_user [exDeal0] exPrefs = [exDeal0] :=
  ⟨by simp [discountGuard], by decide⟩

/-- C9 witness: threshold 20 is positive and the theorem applies there. -/
theorem zero_discount_percent_passes_filter_witness :
    (0 : ℤ) < 20 ∧
    (discountGuard (some 0) 20 = false ∧
      filter_deals_for_user [exDeal0] exPrefs = [exDeal0]) :=
  ⟨by decide, zero_discount_percent_passes_filter 20 (by decide)⟩

/-! ## C7 — the notification time window -/

/-- C7 (confirmed): `is_notification_time_allowed` allows notification
exactly when `start ≤ now ≤ end` for a non-wrapping window, and exactly when
`now ≥ start` or `now ≤ end` for a wrapping window; with window 22:00–05:00
(1320–300 in minutes), 23:30 (1410) is allowed and 12:00 (720) is not. -/
theorem notification_window_cases (now : ℕ) (prefs : UserPreference) :
    (prefs.notification_start_time ≤ prefs.notification_end_time →
      (is_notification_time_allowed now prefs = true ↔
        prefs.notification_start_time ≤ now ∧ now ≤ prefs.notification_end_time)) ∧
    (prefs.notification_end_time < prefs.notification_start_time →
      (is_notification_time_allowed now prefs = true ↔
        now ≥ prefs.notification_start_time ∨ now ≤ prefs.notification_end_time)) ∧
    is_notification_time_allowed 1410 exPrefsWrap = true ∧
    is_notification_time_allowed 720 exPrefsWrap = false := by
  refine ⟨?_, ?_, by decide, by decide⟩
  · intro h
    rw [is_notification_time_allowed, if_pos h]
    simp
  · intro h
    rw [is_notification_time_allowed, if_neg (not_le.mpr h)]
    simp

/-- C7 witness: the wrapping case of the window theorem applied at
now = 23:30 with the 22:00–05:00 example window. -/
theorem notification_window_cases_witness :
    exPrefsWrap.notification_end_time < exPrefsWrap.notification_start_time ∧
    (is_notification_time_allowed 1410 exPrefsWrap = true ↔
      1410 ≥ exPrefsWrap.notification_start_time ∨
        1410 ≤ exPrefsWrap.notification_end_time) :=
  ⟨by decide, (notification_window_cases 1410 exPrefsWrap).2.1 (by decide)⟩

/-! ## C8 — the scheduler state machine -/

/-- The invariant tying `is_running` to registration of the polling job is
preserved by every sequence of `start`/`stop` calls. -/
theorem scheduler_inv_run (acts : List SchedAction) :
    ∀ s : FlashfoodScheduler,
      (s.is_running = true ↔ "flashfood_polling" ∈ s.jobs) →
      (s.is_running = false → s.jobs = []) →
      ((s.runActions acts).is_running = true ↔
        "flashfood_polling" ∈ (s.runActions acts).jobs) ∧
      ((s.runActions acts).is_running = false → (s.runActions acts).jobs = []) := by
  induction acts with
  | nil =>
    intro s h1 h2
    exact ⟨h1, h2⟩
  | cons a rest ih =>
    intro s h1 h2
    cases a with
    | start =>
      refine ih s.start ?_ ?_
      · by_cases hr : s.is_running = true
        · simpa [FlashfoodScheduler.start, hr] using h1
        · have hf : s.is_running = false := by
            revert hr
            cases s.is_running <;> simp
          simp [FlashfoodScheduler.start, hf, FlashfoodScheduler.addJob, h2 hf]
      · by_cases hr : s.is_running = true
        · simpa [FlashfoodScheduler.start, hr] using h2
        · have hf : s.is_running = false := by
            revert hr
            cases s.is_running <;> simp
          simp [FlashfoodScheduler.start, hf]
    | stop =>
      refine ih s.stop ?_ ?_
      · by_cases hr : s.is_running = true
        · simp [FlashfoodScheduler.stop, hr]
        · have hf : s.is_running = false := by
            revert hr
            cases s.is_running <;> simp
          simpa [FlashfoodScheduler.stop, hf] using h1
      · by_cases hr : s.is_running = true
        · simp [FlashfoodScheduler.stop, hr]
        · have hf : s.is_running = false := by
            revert hr
            cases s.is_running <;> simp
          simpa [FlashfoodScheduler.stop, hf] using h2

/-- C8 (confirmed): the scheduler is a two-state machine — `start` from
Stopped registers the polling job and moves to Running, `start` while
Running is a no-op, `stop` from Running cancels the job and moves to
Stopped, `stop` while Stopped is a no-op; and over every sequence of
`start`/`stop` calls from the initial state, `is_running` holds exactly
when the polling job is registered. -/
theorem scheduler_state_machine :
    (∀ s : FlashfoodScheduler, s.is_running = false →
      s.start.is_running = true ∧ "flashfood_polling" ∈ s.start.jobs) ∧
    (∀ s : FlashfoodScheduler, s.is_running = true → s.start = s) ∧
    (∀ s : FlashfoodScheduler, s.is_running = true →
      s.stop.is_running = false ∧ s.stop.jobs = []) ∧
    (∀ s : FlashfoodScheduler, s.is_running = false → s.stop = s) ∧
    (∀ acts : List SchedAction,
      (FlashfoodScheduler.init.runActions acts).is_running = true ↔
        "flashfood_polling" ∈ (FlashfoodScheduler.init.runActions acts).jobs) := by
  refine ⟨?_, ?_, ?_, ?_, ?_⟩
  · intro s h
    constructor
    · simp [FlashfoodScheduler.start, h]
    · rw [FlashfoodScheduler.start, if_neg (by simp [h]), FlashfoodScheduler.addJob]
      by_cases hm : "flashfood_polling" ∈ s.jobs <;> simp [hm]
  · intro s h
    simp [FlashfoodScheduler.start, h]
  · intro s h
    constructor <;> simp [FlashfoodScheduler.stop, h]
  · intro s h
    simp [FlashfoodScheduler.stop, h]
  · intro acts
    exact (scheduler_inv_run acts FlashfoodScheduler.init
      (by simp [FlashfoodScheduler.init]) (fun _ => rfl)).1

/-- C8 witness: from the initial (stopped) state, `start` registers the
polling job and sets `is_running`. -/
theorem scheduler_state_machine_witness :
    FlashfoodScheduler.init.start.is_running = true ∧
    "flashfood_polling" ∈ FlashfoodScheduler.init.start.jobs :=
  scheduler_state_machine.1 FlashfoodScheduler.init rfl

/-! ## C10 — store_id is never updated by the item-update loop -/

/-- C10 (confirmed): updating an existing product from an observed item
leaves `store_id` unchanged — the update loop skips the `store_id` key —
and the result does not depend on the `store_id` the normalized item record
carries at all. -/
theorem store_id_immutable_on_update (p : Product) (info : ItemInfo) (now : ℤ) (sid : ℕ) :
    (applyItemUpdate p info now).store_id = p.store_id ∧
    applyItemUpdate p { info with store_id := sid } now = applyItemUpdate p info now :=
  ⟨rfl, rfl⟩

/-- C10 witness: the update of `exProdA` from an item stamped with a foreign
store id preserves the product's store id. -/
theorem store_id_immutable_on_update_witness :
    (applyItemUpdate exProdA (itemInfoFor 9 exRawA2) 5).store_id = exProdA.store_id ∧
    applyItemUpdate exProdA { itemInfoFor 9 exRawA2 with store_id := 3 } 5 =
      applyItemUpdate exProdA (itemInfoFor 9 exRawA2) 5 :=
  store_id_immutable_on_update exProdA (itemInfoFor 9 exRawA2) 5 3

/-! ## List helper lemmas for the reconciliation proofs -/

theorem find?_append_some {α} {pred : α → Bool} {xs : List α} (ys : List α) {a : α}
    (h : xs.find? pred = some a) : (xs ++ ys).find? pred = some a := by
  induction xs with
  | nil => simp at h
  | cons x xs ih =>
    rw [List.cons_append]
    cases hx : pred x with
    | true =>
      rw [List.find?_cons_of_pos _ hx] at h ⊢
      exact h
    | false =>
      rw [List.find?_cons_of_neg _ (by simp [hx])] at h ⊢
      exact ih h

theorem find?_append_none {α} {pred : α → Bool} {xs : List α} (ys : List α)
    (h : xs.find? pred = none) : (xs ++ ys).find? pred = ys.find? pred := by
  induction xs with
  | nil => rfl
  | cons x xs ih =>
    rw [List.cons_append]
    cases hx : pred x with
    | true =>
      rw [List.find?_cons_of_pos _ hx] at h
      cases h
    | false =>
      rw [List.find?_cons_of_neg _ (by simp [hx])] at h
      rw [List.find?_cons_of_neg _ (by simp [hx])]
      exact ih h

theorem find?_updateFirst_self {α} {pred : α → Bool} {f : α → α} {xs : List α} {a : α}
    (h : xs.find? pred = some a) (hf : pred (f a) = true) :
    (updateFirst pred f xs).find? pred = some (f a) := by
  induction xs with
  | nil => simp at h
  | cons x xs ih =>
    cases hx : pred x with
    | true =>
      rw [List.find?_cons_of_pos _ hx] at h
      injection h with h
      subst h
      simp only [updateFirst, if_pos hx]
      exact List.find?_cons_of_pos _ hf
    | false =>
      rw [List.find?_cons_of_neg _ (by simp [hx])] at h
      simp only [updateFirst, if_neg (by simp [hx] : ¬pred x = true)]
      rw [List.find?_cons_of_neg _ (by simp [hx])]
      exact ih h

theorem find?_updateFirst_other {α} {pred q : α → Bool} {f : α → α} {xs : List α}
    (h : ∀ x, pred x = true → q x = false ∧ q (f x) = false) :
    (updateFirst pred f xs).find? q = xs.find? q := by
  induction xs with
  | nil => rfl
  | cons x xs ih =>
    by_cases hx : pred x = true
    · simp only [updateFirst, if_pos hx]
      rw [List.find?_cons_of_neg _ (by simp [(h x hx).2]),
        List.find?_cons_of_neg _ (by simp [(h x hx).1])]
    · simp only [updateFirst, if_neg hx]
      cases hq : q x with
      | true => rw [List.find?_cons_of_pos _ hq, List.find?_cons_of_pos _ hq]
      | false =>
        rw [List.find?_cons_of_neg _ (by simp [hq]), List.find?_cons_of_neg _ (by simp [hq])]
        exact ih

theorem mem_updateFirst {α} {pred : α → Bool} {f : α → α} {xs : List α} {a : α}
    (ha : a ∈ xs) (hpa : pred a = false) : a ∈ updateFirst pred f xs := by
  induction xs with
  | nil => cases ha
  | cons x xs ih =>
    by_cases hx : pred x = true
    · simp only [updateFirst, if_pos hx]
      rcases List.mem_cons.mp ha with h | h
      · exfalso
        rw [h] at hpa
        rw [hpa] at hx
        exact Bool.false_ne_true hx
      · exact List.mem_cons_of_mem _ h
    · simp only [updateFirst, if_neg hx]
      rcases List.mem_cons.mp ha with h | h
      · rw [h]
        exact List.mem_cons_self _ _
      · exact List.mem_cons_of_mem _ (ih h)

theorem updateFirst_length {α} {pred : α → Bool} {f : α → α} (xs : List α) :
    (updateFirst pred f xs).length = xs.length := by
  induction xs with
  | nil => rfl
  | cons x xs ih =>
    by_cases hx : pred x = true <;> simp [updateFirst, hx, ih]

theorem find?_map_of_pred_comm {α} {q : α → Bool} {g : α → α} {xs : List α}
    (h : ∀ x, q (g x) = q x) : (xs.map g).find? q = (xs.find? q).map g := by
  induction xs with
  | nil => rfl
  | cons x xs ih =>
    rw [List.map_cons]
    cases hq : q x with
    | true =>
      rw [List.find?_cons_of_pos _ hq, List.find?_cons_of_pos _ (by rw [h x]; exact hq)]
      rfl
    | false =>
      rw [List.find?_cons_of_neg _ (by rw [h x]; simp [hq]),
        List.find?_cons_of_neg _ (by simp [hq])]
      exact ih

/-! ## processItem branch equations -/

theorem processItem_notfound (storeId : ℕ) (now : ℤ) (s : ProcState) (raw : RawItem)
    (h : findProd storeId (itemInfoFor storeId raw).external_id s.db.products = none) :
    processItem storeId now s raw =
      { db :=
          { products :=
              s.db.products ++ [createProduct (itemInfoFor storeId raw) s.db.nextProductId now]
            history :=
              s.db.history ++
                [{ product_id := s.db.nextProductId
                   price := (itemInfoFor storeId raw).discount_price
                   quantity_available := (itemInfoFor storeId raw).quantity_available
                   recorded_at := now }]
            nextProductId := s.db.nextProductId + 1 }
        new_items_count := s.new_items_count + 1
        new_products :=
          s.new_products ++ [createProduct (itemInfoFor storeId raw) s.db.nextProductId now]
        current_external_ids :=
          s.current_external_ids.insert (itemInfoFor storeId raw).external_id } := by
  simp only [processItem, h]

theorem processItem_found (storeId : ℕ) (now : ℤ) (s : ProcState) (raw : RawItem) (p : Product)
    (h : findProd storeId (itemInfoFor storeId raw).external_id s.db.products = some p) :
    processItem storeId now s raw =
      { db :=
          { products :=
              updateFirst (productMatches storeId (itemInfoFor storeId raw).external_id)
                (fun q => applyItemUpdate q (itemInfoFor storeId raw) now) s.db.products
            history :=
              if p.discount_price ≠ (itemInfoFor storeId raw).discount_price ∨
                  p.quantity_available ≠ (itemInfoFor storeId raw).quantity_available then
                s.db.history ++
                  [{ product_id := p.id
                     price := (itemInfoFor storeId raw).discount_price
                     quantity_available := (itemInfoFor storeId raw).quantity_available
                     recorded_at := now }]
              else s.db.history
            nextProductId := s.db.nextProductId }
        new_items_count := s.new_items_count
        new_products := s.new_products
        current_external_ids :=
          s.current_external_ids.insert (itemInfoFor storeId raw).external_id } := by
  simp only [processItem, h]

theorem processItem_currentIds (storeId : ℕ) (now : ℤ) (s : ProcState) (raw : RawItem) :
    (processItem storeId now s raw).current_external_ids =
      s.current_external_ids.insert (itemInfoFor storeId raw).external_id := by
  cases h : findProd storeId (itemInfoFor storeId raw).external_id s.db.products with
  | none => rw [processItem_notfound storeId now s raw h]
  | some p => rw [processItem_found storeId now s raw p h]

/-! ## C6 / C1 item-level theorems (drafts) -/

/-- C6 (confirmed): for an item observed again whose stored discount price
and quantity equal the observed ones, reconciliation appends no
price-history row and emits no diff entry, but still rewrites the product:
its `last_seen` is set to now, `first_seen` is untouched, and the other
mutable fields (name, description, category, original price, discount
percent, expiry, image) are overwritten from the observation. -/
theorem unchanged_item_frame (s : ProcState) (storeId : ℕ) (now : ℤ) (raw : RawItem) (p : Product)
    (hfind : findProd storeId (itemInfoFor storeId raw).external_id s.db.products = some p)
    (hprice : p.discount_price = (itemInfoFor storeId raw).discount_price)
    (hqty : p.quantity_available = (itemInfoFor storeId raw).quantity_available) :
    (processItem storeId now s raw).db.history = s.db.history ∧
    (processItem storeId now s raw).new_products = s.new_products ∧
    (processItem storeId now s raw).new_items_count = s.new_items_count ∧
    findProd storeId (itemInfoFor storeId raw).external_id
        (processItem storeId now s raw).db.products
      = some (applyItemUpdate p (itemInfoFor storeId raw) now) ∧
    (applyItemUpdate p (itemInfoFor storeId raw) now).last_seen = now ∧
    (applyItemUpdate p (itemInfoFor storeId raw) now).first_seen = p.first_seen ∧
    (applyItemUpdate p (itemInfoFor storeId raw) now).name = (itemInfoFor storeId raw).name ∧
    (applyItemUpdate p (itemInfoFor storeId raw) now).description
      = (itemInfoFor storeId raw).description ∧
    (applyItemUpdate p (itemInfoFor storeId raw) now).category
      = (itemInfoFor storeId raw).category ∧
    (applyItemUpdate p (itemInfoFor storeId raw) now).original_price
      = (itemInfoFor storeId raw).original_price ∧
    (applyItemUpdate p (itemInfoFor storeId raw) now).discount_percent
      = (itemInfoFor storeId raw).discount_percent ∧
    (applyItemUpdate p (itemInfoFor storeId raw) now).expiry_date
      = (itemInfoFor storeId raw).expiry_date ∧
    (applyItemUpdate p (itemInfoFor storeId raw) now).image_url
      = (itemInfoFor storeId raw).image_url := by
  have hcond : ¬(p.discount_price ≠ (itemInfoFor storeId raw).discount_price ∨
      p.quantity_available ≠ (itemInfoFor storeId raw).quantity_available) := by
    push_neg
    exact ⟨hprice, hqty⟩
  have hpm : productMatches storeId (itemInfoFor storeId raw).external_id p = true := by
    rw [findProd] at hfind
    exact List.find?_some hfind
  have hsid : p.store_id = storeId := (of_decide_eq_true hpm).1
  refine ⟨?_, ?_, ?_, ?_, rfl, rfl, rfl, rfl, rfl, rfl, rfl, rfl, rfl⟩
  · rw [processItem_found storeId now s raw p hfind]
    dsimp only
    rw [if_neg hcond]
  · rw [processItem_found storeId now s raw p hfind]
  · rw [processItem_found storeId now s raw p hfind]
  · rw [processItem_found storeId now s raw p hfind]
    dsimp only
    rw [findProd] at hfind ⊢
    apply find?_updateFirst_self hfind
    simp [productMatches, applyItemUpdate, hsid]

/-- C1 (amended): for an item observed again whose stored discount price or
quantity differs from observation, reconciliation appends exactly one new
price-history row (carrying the new price and quantity); it emits no diff
entry at all for changed items — `new_products` and `new_items_count`, the
only diff output handed to the dispatcher, are unchanged. -/
theorem changed_item_price_history (s : ProcState) (storeId : ℕ) (now : ℤ) (raw : RawItem) (p : Product)
    (hfind : findProd storeId (itemInfoFor storeId raw).external_id s.db.products = some p)
    (hdiff : p.discount_price ≠ (itemInfoFor storeId raw).discount_price ∨
      p.quantity_available ≠ (itemInfoFor storeId raw).quantity_available) :
    (processItem storeId now s raw).db.history =
      s.db.history ++
        [{ product_id := p.id
           price := (itemInfoFor storeId raw).discount_price
           quantity_available := (itemInfoFor storeId raw).quantity_available
           recorded_at := now }] ∧
    (processItem storeId now s raw).new_products = s.new_products ∧
    (processItem storeId now s raw).new_items_count = s.new_items_count := by
  refine ⟨?_, ?_, ?_⟩
  · rw [processItem_found storeId now s raw p hfind]
    dsimp only
    rw [if_pos hdiff]
  · rw [processItem_found storeId now s raw p hfind]
  · rw [processItem_found storeId now s raw p hfind]

/-! ## Fold-level lemmas -/

theorem observes_processItem_self (storeId : ℕ) (now : ℤ) (s : ProcState) (raw : RawItem) :
    observes storeId (itemInfoFor storeId raw) (processItem storeId now s raw).db.products := by
  cases hfind : findProd storeId (itemInfoFor storeId raw).external_id s.db.products with
  | none =>
    rw [processItem_notfound storeId now s raw hfind]
    dsimp only
    refine ⟨createProduct (itemInfoFor storeId raw) s.db.nextProductId now, ?_, rfl, rfl⟩
    rw [findProd] at hfind ⊢
    rw [find?_append_none _ hfind]
    exact List.find?_cons_of_pos _ (by simp [productMatches, createProduct, itemInfoFor])
  | some p =>
    have hpm : productMatches storeId (itemInfoFor storeId raw).external_id p = true := by
      rw [findProd] at hfind
      exact List.find?_some hfind
    have hsid : p.store_id = storeId := (of_decide_eq_true hpm).1
    rw [processItem_found storeId now s raw p hfind]
    dsimp only
    refine ⟨applyItemUpdate p (itemInfoFor storeId raw) now, ?_, rfl, rfl⟩
    rw [findProd] at hfind ⊢
    apply find?_updateFirst_self hfind
    simp [productMatches, applyItemUpdate, hsid]

theorem observes_processItem_ne (storeId : ℕ) (now : ℤ) (s : ProcState) (raw : RawItem)
    (info : ItemInfo) (hne : info.external_id ≠ (itemInfoFor storeId raw).external_id)
    (h : observes storeId info s.db.products) :
    observes storeId info (processItem storeId now s raw).db.products := by
  obtain ⟨p, hfind, hdp, hq⟩ := h
  cases hf : findProd storeId (itemInfoFor storeId raw).external_id s.db.products with
  | none =>
    rw [processItem_notfound storeId now s raw hf]
    dsimp only
    refine ⟨p, ?_, hdp, hq⟩
    rw [findProd] at hfind ⊢
    exact find?_append_some _ hfind
  | some q =>
    rw [processItem_found storeId now s raw q hf]
    dsimp only
    refine ⟨p, ?_, hdp, hq⟩
    rw [findProd] at hfind ⊢
    rw [find?_updateFirst_other ?_]
    · exact hfind
    · intro x hx
      have hxe : x.external_id = (itemInfoFor storeId raw).external_id :=
        (of_decide_eq_true hx).2
      constructor
      · apply decide_eq_false
        rintro ⟨-, he⟩
        rw [hxe] at he
        exact hne he.symm
      · apply decide_eq_false
        rintro ⟨-, he⟩
        exact hne he.symm

theorem observes_markStale (storeId : ℕ) (info : ItemInfo) (ids : List String) (now : ℤ)
    (ps : List Product) (hmem : info.external_id ∈ ids)
    (h : observes storeId info ps) : observes storeId info (markStale storeId ids now ps) := by
  obtain ⟨p, hfind, hdp, hq⟩ := h
  have hg : ∀ x : Product,
      productMatches storeId info.external_id
        (if x.store_id = storeId ∧ x.external_id ∉ ids ∧ 0 < x.quantity_available then
          { x with quantity_available := 0, last_seen := now }
        else x)
      = productMatches storeId info.external_id x := by
    intro x
    by_cases hc : x.store_id = storeId ∧ x.external_id ∉ ids ∧ 0 < x.quantity_available
    · rw [if_pos hc]
      simp [productMatches]
    · rw [if_neg hc]
  have hpm : productMatches storeId info.external_id p = true := by
    rw [findProd] at hfind
    exact List.find?_some hfind
  have hpe : p.external_id = info.external_id := (of_decide_eq_true hpm).2
  have hfix : (if p.store_id = storeId ∧ p.external_id ∉ ids ∧ 0 < p.quantity_available then
      { p with quantity_available := 0, last_seen := now } else p) = p := by
    apply if_neg
    rintro ⟨-, hnot, -⟩
    rw [hpe] at hnot
    exact hnot hmem
  refine ⟨p, ?_, hdp, hq⟩
  rw [markStale, findProd] at *
  rw [find?_map_of_pred_comm hg, hfind]
  simp only [Option.map_some']
  rw [hfix]

theorem observes_foldl_preserve (storeId : ℕ) (now : ℤ) (items : List RawItem)
    (info : ItemInfo)
    (h : ∀ r ∈ items, info.external_id ≠ (itemInfoFor storeId r).external_id) :
    ∀ s : ProcState, observes storeId info s.db.products →
      observes storeId info ((items.foldl (processItem storeId now) s).db.products) := by
  induction items with
  | nil =>
    intro s hs
    exact hs
  | cons r rest ih =>
    intro s hs
    rw [List.foldl_cons]
    exact ih (fun r' hr' => h r' (List.mem_cons_of_mem _ hr')) _
      (observes_processItem_ne storeId now s r info (h r (List.mem_cons_self _ _)) hs)

theorem foldl_observes (storeId : ℕ) (now : ℤ) :
    ∀ (items : List RawItem) (s : ProcState),
      (items.map parseExt).Nodup →
      ∀ r ∈ items, observes storeId (itemInfoFor storeId r)
        ((items.foldl (processItem storeId now) s).db.products) := by
  intro items
  induction items with
  | nil =>
    intro s _ r hr
    cases hr
  | cons r0 rest ih =>
    intro s hnd r hr
    rw [List.map_cons, List.nodup_cons] at hnd
    rw [List.foldl_cons]
    rcases List.mem_cons.mp hr with h | hr'
    · subst h
      apply observes_foldl_preserve storeId now rest (itemInfoFor storeId r)
      · intro r' hr'
        intro he
        exact hnd.1 (by
          rw [show (itemInfoFor storeId r).external_id = parseExt r from rfl] at he
          rw [show (itemInfoFor storeId r').external_id = parseExt r' from rfl] at he
          exact he ▸ List.mem_map_of_mem parseExt hr')
      · exact observes_processItem_self storeId now s r
    · exact ih (processItem storeId now s r0) hnd.2 r hr'

theorem foldl_no_new_history (storeId : ℕ) (now : ℤ) :
    ∀ (items : List RawItem) (s : ProcState),
      (items.map parseExt).Nodup →
      (∀ r ∈ items, observes storeId (itemInfoFor storeId r) s.db.products) →
      ((items.foldl (processItem storeId now) s).db.history = s.db.history ∧
        (items.foldl (processItem storeId now) s).new_items_count = s.new_items_count ∧
        (items.foldl (processItem storeId now) s).new_products = s.new_products) := by
  intro items
  induction items with
  | nil =>
    intro s _ _
    exact ⟨rfl, rfl, rfl⟩
  | cons r rest ih =>
    intro s hnd hobs
    rw [List.map_cons, List.nodup_cons] at hnd
    obtain ⟨p, hfind, hdp, hq⟩ := hobs r (List.mem_cons_self _ _)
    have heq := processItem_found storeId now s r p hfind
    have hcond : ¬(p.discount_price ≠ (itemInfoFor storeId r).discount_price ∨
        p.quantity_available ≠ (itemInfoFor storeId r).quantity_available) := by
      push_neg
      exact ⟨hdp, hq⟩
    have h1 : (processItem storeId now s r).db.history = s.db.history := by
      rw [heq]
      dsimp only
      rw [if_neg hcond]
    have h2 : (processItem storeId now s r).new_items_count = s.new_items_count := by
      rw [heq]
    have h3 : (processItem storeId now s r).new_products = s.new_products := by
      rw [heq]
    have hobs' : ∀ r' ∈ rest,
        observes storeId (itemInfoFor storeId r') (processItem storeId now s r).db.products := by
      intro r' hr'
      apply observes_processItem_ne storeId now s r (itemInfoFor storeId r')
      · intro he
        exact hnd.1 (by
          rw [show (itemInfoFor storeId r').external_id = parseExt r' from rfl] at he
          rw [show (itemInfoFor storeId r).external_id = parseExt r from rfl] at he
          exact he ▸ List.mem_map_of_mem parseExt hr')
      · exact hobs r' (List.mem_cons_of_mem _ hr')
    rw [List.foldl_cons]
    obtain ⟨e1, e2, e3⟩ := ih (processItem storeId now s r) hnd.2 hobs'
    exact ⟨e1.trans h1, e2.trans h2, e3.trans h3⟩

theorem foldl_currentIds (storeId : ℕ) (now : ℤ) :
    ∀ (items : List RawItem) (s : ProcState) (a : String),
      (a ∈ (items.foldl (processItem storeId now) s).current_external_ids ↔
        a ∈ s.current_external_ids ∨ a ∈ items.map parseExt) := by
  intro items
  induction items with
  | nil =>
    intro s a
    simp
  | cons r rest ih =>
    intro s a
    rw [List.foldl_cons, ih]
    rw [processItem_currentIds, List.mem_insert_iff]
    rw [show (itemInfoFor storeId r).external_id = parseExt r from rfl]
    simp only [List.map_cons, List.mem_cons]
    tauto

theorem process_store_items_eq (storeId : ℕ) (now : ℤ) (db : DbState) (items : List RawItem) :
    process_store_items storeId now db items =
      ({ products := markStale storeId
            ((items.foldl (processItem storeId now)
              { db := db, new_items_count := 0, new_products := [],
                current_external_ids := [] }).current_external_ids) now
            ((items.foldl (processItem storeId now)
              { db := db, new_items_count := 0, new_products := [],
                current_external_ids := [] }).db.products)
         history := (items.foldl (processItem storeId now)
            { db := db, new_items_count := 0, new_products := [],
              current_external_ids := [] }).db.history
         nextProductId := (items.foldl (processItem storeId now)
            { db := db, new_items_count := 0, new_products := [],
              current_external_ids := [] }).db.nextProductId },
       (items.foldl (processItem storeId now)
          { db := db, new_items_count := 0, new_products := [],
            current_external_ids := [] }).new_items_count,
       (items.foldl (processItem storeId now)
          { db := db, new_items_count := 0, new_products := [],
            current_external_ids := [] }).new_products) := rfl

theorem mem_products_foldl (storeId : ℕ) (now : ℤ) :
    ∀ (items : List RawItem) (s : ProcState) (p : Product), p ∈ s.db.products →
      (∀ r ∈ items, productMatches storeId (itemInfoFor storeId r).external_id p = false) →
      p ∈ ((items.foldl (processItem storeId now) s).db.products) := by
  intro items
  induction items with
  | nil =>
    intro s p hp _
    exact hp
  | cons r rest ih =>
    intro s p hp hm
    rw [List.foldl_cons]
    apply ih _ _ ?_ (fun r' hr' => hm r' (List.mem_cons_of_mem _ hr'))
    cases hfind : findProd storeId (itemInfoFor storeId r).external_id s.db.products with
    | none =>
      rw [processItem_notfound storeId now s r hfind]
      dsimp only
      exact List.mem_append_left _ hp
    | some q =>
      rw [processItem_found storeId now s r q hfind]
      dsimp only
      exact mem_updateFirst hp (hm r (List.mem_cons_self _ _))

theorem foldl_new_products_ext (storeId : ℕ) (now : ℤ) :
    ∀ (items : List RawItem) (s : ProcState) (q : Product),
      q ∈ (items.foldl (processItem storeId now) s).new_products →
      q ∈ s.new_products ∨ q.external_id ∈ items.map parseExt := by
  intro items
  induction items with
  | nil =>
    intro s q hq
    exact Or.inl hq
  | cons r rest ih =>
    intro s q hq
    rw [List.foldl_cons] at hq
    rcases ih (processItem storeId now s r) q hq with h | h
    · cases hfind : findProd storeId (itemInfoFor storeId r).external_id s.db.products with
      | none =>
        rw [processItem_notfound storeId now s r hfind] at h
        dsimp only at h
        rcases List.mem_append.mp h with h' | h'
        · exact Or.inl h'
        · right
          rcases List.mem_singleton.mp h' with rfl
          rw [show (createProduct (itemInfoFor storeId r) s.db.nextProductId now).external_id
              = parseExt r from rfl]
          exact List.mem_cons_self _ _
      | some p =>
        rw [processItem_found storeId now s r p hfind] at h
        dsimp only at h
        exact Or.inl h
    · right
      rw [List.map_cons]
      exact List.mem_cons_of_mem _ h

theorem foldl_products_length (storeId : ℕ) (now : ℤ) :
    ∀ (items : List RawItem) (s : ProcState),
      s.db.products.length ≤ (items.foldl (processItem storeId now) s).db.products.length := by
  intro items
  induction items with
  | nil =>
    intro s
    exact le_refl _
  | cons r rest ih =>
    intro s
    rw [List.foldl_cons]
    refine le_trans ?_ (ih (processItem storeId now s r))
    cases hfind : findProd storeId (itemInfoFor storeId r).external_id s.db.products with
    | none =>
      rw [processItem_notfound storeId now s r hfind]
      dsimp only
      rw [List.length_append]
      exact Nat.le_add_right _ _
    | some p =>
      rw [processItem_found storeId now s r p hfind]
      dsimp only
      rw [updateFirst_length]

theorem markStale_length (storeId : ℕ) (ids : List String) (now : ℤ) (ps : List Product) :
    (markStale storeId ids now ps).length = ps.length := by
  rw [markStale, List.length_map]

theorem mem_markStale_stale {storeId : ℕ} {ids : List String} {now : ℤ} {ps : List Product}
    {p : Product} (hp : p ∈ ps)
    (h : p.store_id = storeId ∧ p.external_id ∉ ids ∧ 0 < p.quantity_available) :
    { p with quantity_available := 0, last_seen := now } ∈ markStale storeId ids now ps := by
  rw [markStale]
  refine List.mem_map.mpr ⟨p, hp, ?_⟩
  rw [if_pos h]

theorem mem_markStale_keep {storeId : ℕ} {ids : List String} {now : ℤ} {ps : List Product}
    {p : Product} (hp : p ∈ ps)
    (h : ¬(p.store_id = storeId ∧ p.external_id ∉ ids ∧ 0 < p.quantity_available)) :
    p ∈ markStale storeId ids now ps := by
  rw [markStale]
  refine List.mem_map.mpr ⟨p, hp, ?_⟩
  rw [if_neg h]

/-! ## Claim assemblies -/

/-- C4 (amended): reconciliation is idempotent per store for snapshots
whose items carry pairwise-distinct external ids — a second run with the
identical snapshot appends no price-history row and emits no diff entry. -/
theorem reconcile_idempotent (db : DbState) (storeId : ℕ) (now now2 : ℤ)
    (items : List RawItem) (hnd : (items.map parseExt).Nodup) :
    (process_store_items storeId now2 (process_store_items storeId now db items).1 items).1.history
      = (process_store_items storeId now db items).1.history ∧
    (process_store_items storeId now2 (process_store_items storeId now db items).1 items).2.1 = 0 ∧
    (process_store_items storeId now2 (process_store_items storeId now db items).1 items).2.2
      = [] := by
  set db1 := (process_store_items storeId now db items).1 with hdb1
  have hobs1 : ∀ r ∈ items, observes storeId (itemInfoFor storeId r) db1.products := by
    intro r hr
    rw [hdb1, process_store_items_eq]
    dsimp only
    apply observes_markStale
    · rw [foldl_currentIds]
      exact Or.inr (List.mem_map_of_mem parseExt hr)
    · exact foldl_observes storeId now items _ hnd r hr
  obtain ⟨e1, e2, e3⟩ := foldl_no_new_history storeId now2 items
    { db := db1, new_items_count := 0, new_products := [], current_external_ids := [] }
    hnd (by intro r hr; exact hobs1 r hr)
  rw [process_store_items_eq storeId now2 db1 items]
  exact ⟨e1, e2, e3⟩

/-- C5 (confirmed): every product of the store absent from the snapshot and
with positive quantity is soft-deleted — quantity forced to 0, `last_seen`
set to now — with no diff entry emitted for it and its row never removed;
absent products already at quantity ≤ 0 are left untouched. -/
theorem stale_products_soft_deleted (db : DbState) (storeId : ℕ) (now : ℤ)
    (items : List RawItem) (p : Product)
    (hp : p ∈ db.products) (hsid : p.store_id = storeId)
    (habs : p.external_id ∉ items.map parseExt) :
    (0 < p.quantity_available →
      { p with quantity_available := 0, last_seen := now }
        ∈ (process_store_items storeId now db items).1.products) ∧
    (p.quantity_available ≤ 0 →
      p ∈ (process_store_items storeId now db items).1.products) ∧
    p ∉ (process_store_items storeId now db items).2.2 ∧
    db.products.length ≤ (process_store_items storeId now db items).1.products.length := by
  have hm : ∀ r ∈ items, productMatches storeId (itemInfoFor storeId r).external_id p = false := by
    intro r hr
    apply decide_eq_false
    rintro ⟨-, he⟩
    apply habs
    rw [he, show (itemInfoFor storeId r).external_id = parseExt r from rfl]
    exact List.mem_map_of_mem parseExt hr
  have hmemF : p ∈ ((items.foldl (processItem storeId now)
      { db := db, new_items_count := 0, new_products := [],
        current_external_ids := [] }).db.products) :=
    mem_products_foldl storeId now items _ p hp hm
  have hnotin : p.external_id ∉ (items.foldl (processItem storeId now)
      { db := db, new_items_count := 0, new_products := [],
        current_external_ids := [] }).current_external_ids := by
    rw [foldl_currentIds]
    rintro (h | h)
    · simp at h
    · exact habs h
  refine ⟨?_, ?_, ?_, ?_⟩
  · intro hq
    rw [process_store_items_eq]
    exact mem_markStale_stale hmemF ⟨hsid, hnotin, hq⟩
  · intro hq
    rw [process_store_items_eq]
    refine mem_markStale_keep hmemF ?_
    rintro ⟨-, -, hq'⟩
    exact absurd hq (not_le.mpr hq')
  · rw [process_store_items_eq]
    dsimp only
    intro hin
    rcases foldl_new_products_ext storeId now items _ p hin with h | h
    · simp at h
    · exact habs h
  · rw [process_store_items_eq]
    dsimp only
    rw [markStale_length]
    exact foldl_products_length storeId now items
      { db := db, new_items_count := 0, new_products := [], current_external_ids := [] }

/-- C4 counterexample: with a snapshot holding two items that share
external id `"a"` at different prices, the first run writes 2 history rows
and an immediately repeated identical run writes 2 more — idempotence fails
for snapshots with duplicated external ids. -/
theorem reconcile_second_run_adds_history :
    (process_store_items 1 5 exDb0 [exRawA1, exRawA2]).1.history.length = 2 ∧
    (process_store_items 1 6 (process_store_items 1 5 exDb0 [exRawA1, exRawA2]).1
        [exRawA1, exRawA2]).1.history.length = 4 := by decide

/-- C4 witness: a singleton snapshot has distinct external ids, and
rerunning reconciliation on it adds nothing. -/
theorem reconcile_idempotent_witness :
    ([exRawA2].map parseExt).Nodup ∧
    ((process_store_items 1 6 (process_store_items 1 5 exDb0 [exRawA2]).1 [exRawA2]).1.history
        = (process_store_items 1 5 exDb0 [exRawA2]).1.history ∧
      (process_store_items 1 6 (process_store_items 1 5 exDb0 [exRawA2]).1 [exRawA2]).2.1 = 0 ∧
      (process_store_items 1 6 (process_store_items 1 5 exDb0 [exRawA2]).1 [exRawA2]).2.2 = []) :=
  ⟨by decide, reconcile_idempotent exDb0 1 5 6 [exRawA2] (by decide)⟩

/-- C5 witness: product `"b"` is absent from the snapshot `[exRawA2]`; its
soft-delete behaviour follows from the theorem. -/
theorem stale_products_soft_deleted_witness :
    exProdB ∈ exDbB.products ∧ exProdB.store_id = 1 ∧
    exProdB.external_id ∉ [exRawA2].map parseExt ∧
    ((0 < exProdB.quantity_available →
      { exProdB with quantity_available := 0, last_seen := 5 }
        ∈ (process_store_items 1 5 exDbB [exRawA2]).1.products) ∧
     (exProdB.quantity_available ≤ 0 →
      exProdB ∈ (process_store_items 1 5 exDbB [exRawA2]).1.products) ∧
     exProdB ∉ (process_store_items 1 5 exDbB [exRawA2]).2.2 ∧
     exDbB.products.length ≤ (process_store_items 1 5 exDbB [exRawA2]).1.products.length) :=
  ⟨by decide, rfl, by decide,
    stale_products_soft_deleted exDbB 1 5 [exRawA2] exProdB (by decide) rfl (by decide)⟩

/-- C6 witness: `exProdA2` already agrees with the observation `exRawA2`,
and processing the item leaves history and diff output unchanged. -/
theorem unchanged_item_frame_witness :
    findProd 1 (itemInfoFor 1 exRawA2).external_id exProcA2.db.products = some exProdA2 ∧
    exProdA2.discount_price = (itemInfoFor 1 exRawA2).discount_price ∧
    exProdA2.quantity_available = (itemInfoFor 1 exRawA2).quantity_available ∧
    (processItem 1 5 exProcA2 exRawA2).db.history = exProcA2.db.history ∧
    (processItem 1 5 exProcA2 exRawA2).new_products = exProcA2.new_products :=
  ⟨by decide, by decide, by decide,
    (unchanged_item_frame exProcA2 1 5 exRawA2 exProdA2 (by decide) (by decide) (by decide)).1,
    (unchanged_item_frame exProcA2 1 5 exRawA2 exProdA2 (by decide) (by decide) (by decide)).2.1⟩

/-- C1 counterexample: store 1 holds product `"a"` at price 3; the snapshot
reprices it to 2. Reconciliation adds one price-history row but the diff
output passed onward to the dispatcher is empty — no `changed`-kind entry
exists anywhere in the code's diff output. -/
theorem changed_item_no_diff_entry_emitted :
    findProd 1 "a" exDb1.products = some exProdA ∧
    exProdA.discount_price ≠ (parse_item_data exRawA2).discount_price ∧
    (process_store_items 1 5 exDb1 [exRawA2]).1.history.length = exDb1.history.length + 1 ∧
    (process_store_items 1 5 exDb1 [exRawA2]).2.2 = [] := by decide

/-- C1 witness: processing the repriced item `exRawA2` against the stored
`exProdA` appends exactly the expected history row and leaves the diff
output unchanged. -/
theorem changed_item_price_history_witness :
    findProd 1 (itemInfoFor 1 exRawA2).external_id exProcA.db.products = some exProdA ∧
    exProdA.discount_price ≠ (itemInfoFor 1 exRawA2).discount_price ∧
    (processItem 1 5 exProcA exRawA2).db.history =
      exProcA.db.history ++
        [{ product_id := exProdA.id
           price := (itemInfoFor 1 exRawA2).discount_price
           quantity_available := (itemInfoFor 1 exRawA2).quantity_available
           recorded_at := 5 }] ∧
    (processItem 1 5 exProcA exRawA2).new_products = exProcA.new_products :=
  ⟨by decide, by decide,
    (changed_item_price_history exProcA 1 5 exRawA2 exProdA (by decide) (Or.inl (by decide))).1,
    (changed_item_price_history exProcA 1 5 exRawA2 exProdA (by decide) (Or.inl (by decide))).2.1⟩
